import Mathlib

/-!
Shallow embedding of the Oracle job-tracking backend (Python/FastAPI/SQLModel),
restricted to the data model and the request handlers that the verified
properties concern: the user router (login, downgrade_user, delete_user), the
job router (create_job) and the search router (update).

Modelling conventions:
* The relational store is a record of lists of rows.  `db.exec(select(...)).first()`
  becomes `List.find?`, `.all()` becomes `List.filter`, `db.get(Model, pk)` becomes
  a `find?` on the primary key.
* A request handler is a pure function from the committed store (plus the
  authenticated caller and the request payload) to `Except E (Store × ...)`.
  `get_db` yields a session that is closed without commit when the handler
  raises, so a handler that raises an HTTPException commits nothing: the
  `.error` result leaves the committed store equal to the input store.
* SQLite's autoincrement primary-key assignment performed at `db.flush()` is
  modelled by the `nextJobId` counter carried in the store.
* Python truthiness of `Optional[int]` / `Optional[str]` fields (`if job.id:`,
  `if job.iid:`) is modelled explicitly: `None`, `0` and `""` are falsy.
* Columns never read nor conditionally written by the modelled handlers
  (timestamps on User/Job/Rating, the AI/rating payload columns on Rating, the
  profile text columns on User, the descriptive optional columns on Job) are
  omitted from the row records; they are carried verbatim by the handlers and
  play no role in any verified property.
* `HashHelper.verify` and token issuance live in `services/auth.py`, which is
  not part of the sources; `login` therefore takes the verifier as an explicit
  function argument and returns the data handed to `auth.create_token`.
-/

/-- Row of the `user` table (src/data/models/user.py).  Scalar profile columns
and timestamps are omitted: the modelled handlers never read them. -/
structure User where
  id : Option Int
  username : String
  email : String
  password_hash : String
  admin : Bool
  deriving DecidableEq, Repr

/-- Row of the `job` table (src/data/models/job.py).  The optional descriptive
columns and timestamps are omitted: the modelled handlers never read them. -/
structure Job where
  id : Option Int
  title : String
  description : String
  iid : Option String
  deriving DecidableEq, Repr

/-- Row of the `rating` table (src/data/models/rating.py): composite primary
key (job_id, user_id).  The rating/AI payload columns and timestamps are
omitted: the modelled handlers never read them. -/
structure Rating where
  job_id : Int
  user_id : Int
  deriving DecidableEq, Repr

/-- Row of the `search` table (src/data/models/search.py).  Timestamps are
modelled as abstract instants (`Int`). -/
structure Search where
  id : Option Int
  created_at : Int
  updated_at : Int
  user_id : Int
  job_title : String
  date_posted : String
  working_model : String
  location : String
  scraping_amount : Int
  platform : String
  deriving DecidableEq, Repr

/-- The committed relational store: the four tables plus the autoincrement
state of the `job` table's primary key. -/
structure Store where
  users : List User
  jobs : List Job
  ratings : List Rating
  searches : List Search
  nextJobId : Int
  deriving DecidableEq, Repr

/-- Python truthiness of an `Optional[int]`: `None` and `0` are falsy. -/
def truthyOptInt : Option Int → Bool
  | none => false
  | some i => i != 0

/-- Python truthiness of an `Optional[str]`: `None` and `""` are falsy. -/
def truthyOptStr : Option String → Bool
  | none => false
  | some s => !s.isEmpty

/-- Well-formedness facts about a committed store that the SQLite schema
guarantees: every persisted job has an assigned primary id below the
autoincrement counter, and every rating's `job_id` foreign key references a
persisted job. -/
structure Store.WF (st : Store) : Prop where
  jobIdsAssigned : ∀ j ∈ st.jobs, ∃ i, j.id = some i ∧ i < st.nextJobId
  ratingsFK : ∀ r ∈ st.ratings, ∃ j ∈ st.jobs, j.id = some r.job_id

/-- Number of accounts with `admin = True`
(`len(sesh.exec(select(User).where(User.admin == True)).all())`). -/
def adminCount (st : Store) : Nat :=
  (st.users.filter (fun a => a.admin == true)).length

/-! ## User router (src/api/user/user_router.py) -/

/-- The payload handed to `auth.create_token` on a successful login
(constructed at src/api/user/user_router.py line 76). -/
structure UserAuthData where
  username : String
  user_id : Int
  deriving DecidableEq, Repr

/-- Failure modes of the `login` handler, in the order the code raises them. -/
inductive LoginError where
  | userNotFound
  | invalidCredentials
  | userIdMissing
  deriving DecidableEq, Repr

/-- HTTP status attached to each `login` failure. -/
def loginStatus : LoginError → Nat
  | .userNotFound => 404
  | .invalidCredentials => 401
  | .userIdMissing => 404

/-- Client-facing detail string attached to each `login` failure. -/
def loginDetail : LoginError → String
  | .userNotFound => "User not found"
  | .invalidCredentials => "Invalid credentials"
  | .userIdMissing => "User ID is missing"

/-- `login` (src/api/user/user_router.py lines 43-80): look the account up by
username or email, verify the password against the stored hash, and return the
data from which the token is minted.  `verify` is `HashHelper.verify` from
`services/auth.py` (not in the sources), passed as a function argument. -/
def login (st : Store) (verify : String → String → Bool)
    (username_or_email password : String) : Except LoginError UserAuthData :=
  match st.users.find? (fun u =>
      u.username == username_or_email || u.email == username_or_email) with
  | none => .error .userNotFound
  | some u =>
    if verify password u.password_hash = false then .error .invalidCredentials
    else
      match u.id with
      | none => .error .userIdMissing
      | some uid => .ok { username := u.username, user_id := uid }

/-- Failure modes of the `downgrade_user` handler. -/
inductive DowngradeError where
  | userNotFound
  | notAdmin
  | lastAdmin
  deriving DecidableEq, Repr

/-- HTTP status attached to each `downgrade_user` failure. -/
def downgradeStatus : DowngradeError → Nat
  | .userNotFound => 404
  | .notAdmin => 400
  | .lastAdmin => 400

/-- The read/check phase of `downgrade_user` (src/api/user/user_router.py
lines 208-216): resolve the target row and decide whether the demotion may
proceed, without writing.  Returns the row to demote, or `none` when the
handler would raise.  Split out so that interleavings of two concurrent
requests, each of which performs its reads before either writes, can be
expressed. -/
def downgrade_check (st : Store) (user_name : String) : Option User :=
  match st.users.find? (fun u => u.username == user_name) with
  | none => none
  | some u =>
    if u.admin = false then none
    else if adminCount st == 1 && u.admin then none
    else some u

/-- The write/commit phase of `downgrade_user` (src/api/user/user_router.py
lines 217-218): set `admin = False` on the resolved row and commit. -/
def downgrade_write (st : Store) (usr : User) : Store :=
  { st with users := st.users.map (fun x =>
      if x.id == usr.id then { x with admin := false } else x) }

/-- `downgrade_user` (src/api/user/user_router.py lines 196-218): resolve the
target by username, refuse if it is not an admin, count the admins, refuse if
the target is the last admin, otherwise clear its admin flag and commit. -/
def downgrade_user (st : Store) (user_name : String) : Except DowngradeError Store :=
  match st.users.find? (fun u => u.username == user_name) with
  | none => .error .userNotFound
  | some u =>
    if u.admin = false then .error .notAdmin
    else if adminCount st == 1 && u.admin then .error .lastAdmin
    else .ok (downgrade_write st u)

/-- Failure modes of the `delete_user` handler. -/
inductive DeleteError where
  | forbiddenDelete
  | targetNotFound
  deriving DecidableEq, Repr

/-- HTTP status attached to each `delete_user` failure. -/
def deleteStatus : DeleteError → Nat
  | .forbiddenDelete => 403
  | .targetNotFound => 404

/-- `delete_user` (src/api/user/user_router.py lines 221-244): with no
`user_id` query parameter the authenticated caller's own row is deleted and
committed unconditionally; with a `user_id`, a non-admin caller may only name
itself, the target is fetched by primary key, and the found row is deleted and
committed. -/
def delete_user (st : Store) (caller : User) (user_id : Option Int) :
    Except DeleteError (Store × String) :=
  match user_id with
  | none =>
    .ok ({ st with users := st.users.filter (fun u => !(u.id == caller.id)) },
      "User deleted successfully")
  | some uid =>
    if !(caller.id == some uid) && !caller.admin then .error .forbiddenDelete
    else
      match st.users.find? (fun u => u.id == some uid) with
      | none => .error .targetNotFound
      | some target =>
        .ok ({ st with users := st.users.filter (fun u => !(u.id == target.id)) },
          "User deleted successfully")

/-! ## Job router (src/api/jobs/job_router.py) -/

/-- Failure modes of the `create_job` handler, in the order the code raises
them. -/
inductive CreateJobError where
  | idNotAllowed
  | alreadyLinked
  | jobIdUndetermined
  deriving DecidableEq, Repr

/-- HTTP status attached to each `create_job` failure. -/
def createJobStatus : CreateJobError → Nat
  | .idNotAllowed => 400
  | .alreadyLinked => 400
  | .jobIdUndetermined => 500

/-- `db.add(job); db.flush()` on the job table: a row with no primary id gets
the next autoincrement id assigned at flush; a row arriving with an explicit
id keeps it. -/
def addJobFlush (st : Store) (j : Job) : Store × Job :=
  match j.id with
  | some _ => ({ st with jobs := st.jobs ++ [j] }, j)
  | none =>
    let j2 := { j with id := some st.nextJobId }
    ({ st with jobs := st.jobs ++ [j2], nextJobId := st.nextJobId + 1 }, j2)

/-- `create_job` (src/api/jobs/job_router.py lines 69-126).  `uid` is the
primary id of the account resolved by `get_user` (non-null for any persisted
row).  `uuidv4` is the value `str(uuid.uuid4())` would produce on this call,
passed as an argument since it is a fresh random value.  The session is
committed exactly once, after the rating insert; a raised HTTPException closes
the session without commit, so an `.error` result commits nothing
(src/data/database.py lines 57-71). -/
def create_job (st : Store) (job : Job) (uid : Int) (uuidv4 : String) :
    Except CreateJobError (Store × String) :=
  if truthyOptInt job.id then .error .idNotAllowed
  else
    let p : Option String × Bool :=
      if truthyOptStr job.iid then (job.iid, false) else (some uuidv4, true)
    let job1 : Job := { job with iid := p.1 }
    let generated := p.2
    let existing_job : Option Job :=
      if generated then none
      else st.jobs.find? (fun jb => jb.iid == job1.iid)
    let ratingHit : Option Rating :=
      match existing_job with
      | some ej => st.ratings.find? (fun r =>
          some r.job_id == ej.id && r.user_id == uid)
      | none => none
    if existing_job.isSome && ratingHit.isSome then .error .alreadyLinked
    else
      let stj : Store × Job :=
        match existing_job with
        | some _ => (st, job1)
        | none => addJobFlush st job1
      let jobid : Option Int :=
        match existing_job with
        | some ej => ej.id
        | none => stj.2.id
      match jobid with
      | none => .error .jobIdUndetermined
      | some jid =>
        let rating : Rating := { job_id := jid, user_id := uid }
        let st2 : Store := { stj.1 with ratings := stj.1.ratings ++ [rating] }
        let message :=
          if existing_job.isSome then
            "The Job already existed and is now linked to your account"
          else "The Job has been created"
        .ok (st2, message)

/-- The store committed by a `create_job` request: the handler's single
`db.commit()` on success, and the rollback performed when the session is
closed after an HTTPException. -/
def create_job_store (st : Store) (job : Job) (uid : Int) (uuidv4 : String) : Store :=
  match create_job st job uid uuidv4 with
  | .error _ => st
  | .ok (st2, _) => st2

/-! ## Search router (src/api/search/search_router.py) -/

/-- The `update` request body after `model_dump(exclude_unset=True)`
(src/api/search/search_router.py line 57): the six data columns and `user_id`
have no default in the `Search` model, so any request the endpoint accepts
supplies them; `id`, `created_at` and `updated_at` have defaults and are
`none` here when the request did not set them. -/
structure SearchUpdatePayload where
  id : Option Int
  created_at : Option Int
  updated_at : Option Int
  user_id : Int
  job_title : String
  date_posted : String
  working_model : String
  location : String
  scraping_amount : Int
  platform : String
  deriving DecidableEq, Repr

/-- Failure modes of the search `update` handler. -/
inductive UpdateSearchError where
  | idRequired
  | searchNotFound
  | forbiddenUpdate
  deriving DecidableEq, Repr

/-- HTTP status attached to each search `update` failure. -/
def updateSearchStatus : UpdateSearchError → Nat
  | .idRequired => 400
  | .searchNotFound => 404
  | .forbiddenUpdate => 403

/-- The `setattr` loop of the search `update` handler
(src/api/search/search_router.py lines 57-62): every key of the dumped
payload outside `ignored_fields = [id, user_id, created_at, updated_at]` is
assigned onto the fetched row.  The six data columns are always present in the
dump; the ignored keys are skipped whether present or not. -/
def applySearchUpdate (ex : Search) (p : SearchUpdatePayload) : Search :=
  { ex with
    job_title := p.job_title
    date_posted := p.date_posted
    working_model := p.working_model
    location := p.location
    scraping_amount := p.scraping_amount
    platform := p.platform }

/-- Search `update` (src/api/search/search_router.py lines 44-65): require a
truthy id, fetch the row by primary key, authorize owner-or-admin, assign the
non-ignored payload fields onto the row and commit. -/
def update_search (st : Store) (caller : User) (p : SearchUpdatePayload) :
    Except UpdateSearchError Store :=
  if !truthyOptInt p.id then .error .idRequired
  else
    match st.searches.find? (fun sr => sr.id == p.id) with
    | none => .error .searchNotFound
    | some ex =>
      if !(caller.id == some ex.user_id) && !caller.admin then
        .error .forbiddenUpdate
      else
        .ok { st with searches := st.searches.map (fun sr =>
          if sr.id == ex.id then applySearchUpdate ex p else sr) }

/-! ## Concrete fixtures used by witnesses and counterexamples -/

/-- A lone administrator account. -/
def soloAdmin : User :=
  { id := some 1, username := "lonelyadmin", email := "lonelyadmin@example.com",
    password_hash := "h1", admin := true }

/-- A store whose only account is `soloAdmin`. -/
def soloAdminStore : Store :=
  { users := [soloAdmin], jobs := [], ratings := [], searches := [], nextJobId := 1 }

/-- First of two administrators. -/
def adminOne : User :=
  { id := some 1, username := "admin1", email := "admin1@example.com",
    password_hash := "h1", admin := true }

/-- Second of two administrators. -/
def adminTwo : User :=
  { id := some 2, username := "admin2", email := "admin2@example.com",
    password_hash := "h2", admin := true }

/-- A store holding exactly the two administrators. -/
def twoAdminStore : Store :=
  { users := [adminOne, adminTwo], jobs := [], ratings := [], searches := [],
    nextJobId := 1 }

/-- A regular account used by the login scenarios. -/
def alice : User :=
  { id := some 1, username := "alice", email := "alice@example.com",
    password_hash := "hashA", admin := false }

/-- A store whose only account is `alice`. -/
def loginStore : Store :=
  { users := [alice], jobs := [], ratings := [], searches := [], nextJobId := 1 }

/-- A store with no rows at all. -/
def emptyStore : Store :=
  { users := [], jobs := [], ratings := [], searches := [], nextJobId := 1 }

/-- A create_job payload carrying an external key and no primary id. -/
def freshJob : Job :=
  { id := none, title := "t", description := "d", iid := some "X123" }

/-- A persisted job holding the external key of `freshJob`. -/
def existingJob : Job :=
  { id := some 1, title := "t", description := "d", iid := some "X123" }

/-- A store already holding `existingJob` and no ratings. -/
def oneJobStore : Store :=
  { users := [], jobs := [existingJob], ratings := [], searches := [], nextJobId := 2 }

/-- A create_job payload whose caller-chosen primary id is `0`. -/
def zeroIdJob : Job :=
  { id := some 0, title := "t", description := "d", iid := some "Z9" }

/-! ## Helper lemmas about `create_job` -/

/-- On the create path (no caller id, external key given, no persisted job
with that key) the handler commits, in one store, the new job with the
store-assigned id and its first rating. -/
theorem create_job_fresh_eq (st : Store) (job : Job) (uid : Int) (uu : String)
    (hid : job.id = none) (htr : truthyOptStr job.iid = true)
    (hnone : st.jobs.find? (fun jb => jb.iid == job.iid) = none) :
    create_job st job uid uu =
      .ok ({ st with
             jobs := st.jobs ++ [{ job with id := some st.nextJobId }],
             nextJobId := st.nextJobId + 1,
             ratings := st.ratings ++ [{ job_id := st.nextJobId, user_id := uid }] },
        "The Job has been created") := by
  simp [create_job, truthyOptInt, hid, htr, hnone, addJobFlush]

/-- On the link path (existing job with the key, no rating for the caller)
the handler commits only the new rating and reports the linked message. -/
theorem create_job_link_eq (st : Store) (job : Job) (uid : Int) (uu : String)
    (ej : Job) (jid : Int)
    (hid : truthyOptInt job.id = false) (htr : truthyOptStr job.iid = true)
    (hfind : st.jobs.find? (fun jb => jb.iid == job.iid) = some ej)
    (hej : ej.id = some jid)
    (hnr : st.ratings.find? (fun r => some r.job_id == ej.id && r.user_id == uid)
      = none) :
    create_job st job uid uu =
      .ok ({ st with ratings := st.ratings ++ [{ job_id := jid, user_id := uid }] },
        "The Job already existed and is now linked to your account") := by
  simp [create_job, hid, htr, hfind, hnr, hej]
  intro x hx hxj
  have hh := List.find?_eq_none.mp hnr x hx
  simp [hej, hxj] at hh
  exact hh

/-- When a persisted job with the key exists and the caller already holds a
rating for it, the handler raises `alreadyLinked`. -/
theorem create_job_already_linked (st : Store) (job : Job) (uid : Int) (uu : String)
    (ej : Job) (r : Rating)
    (hid : truthyOptInt job.id = false) (htr : truthyOptStr job.iid = true)
    (hfind : st.jobs.find? (fun jb => jb.iid == job.iid) = some ej)
    (hr : st.ratings.find? (fun rr => some rr.job_id == ej.id && rr.user_id == uid)
      = some r) :
    create_job st job uid uu = .error .alreadyLinked := by
  simp [create_job, hid, htr, hfind, hr]

/-- A request that raised an HTTPException commits nothing: the session is
closed without commit and rolls back. -/
theorem create_job_error_store (st : Store) (job : Job) (uid : Int) (uu : String)
    (e : CreateJobError) (h : create_job st job uid uu = .error e) :
    create_job_store st job uid uu = st := by
  simp [create_job_store, h]

/-! ## Claims -/

/-- C1.  The reachable-state invariant fails on the code: starting from a
store whose only account is an administrator, that administrator's self-delete
(`delete_user` with no `user_id` query parameter) commits a store whose set of
accounts with `admin = true` is empty.  The handler contains no
administrator-invariant guard on any of its paths, while the repository's own
test `test_self_destruct_admin_last_admin` expects the request to fail with
status 400. -/
theorem delete_user_can_remove_last_admin :
    adminCount soloAdminStore = 1 ∧
    delete_user soloAdminStore soloAdmin none =
      .ok ({ soloAdminStore with users := [] }, "User deleted successfully") ∧
    adminCount { soloAdminStore with users := [] } = 0 :=
  ⟨rfl, rfl, rfl⟩

/-- C5.  The delete-another-account entry point does not refuse an
administrator naming their own id: `delete_user` with `user_id` equal to the
caller's id deletes the caller's account and returns success, instead of the
distinct `UseSelfServiceRoute` error (400) the specification and the
repository's own test `test_sudo_delete_self` require. -/
theorem sudo_delete_self_deletes_caller :
    delete_user soloAdminStore soloAdmin (some 1) =
      .ok ({ soloAdminStore with users := [] }, "User deleted successfully") ∧
    adminCount { soloAdminStore with users := [] } = 0 :=
  ⟨rfl, rfl⟩

/-- C6 counterexample.  Login failures are distinguishable to the client: an
unknown username-or-email yields 404 "User not found" while a wrong password
for an existing account yields 401 "Invalid credentials" — different status
and different detail, refuting the claimed two-run indistinguishability. -/
theorem login_failures_distinguishable :
    login loginStore (fun _ _ => false) "bob" "pw" = .error .userNotFound ∧
    login loginStore (fun _ _ => false) "alice" "pw" = .error .invalidCredentials ∧
    loginStatus .userNotFound ≠ loginStatus .invalidCredentials ∧
    loginDetail .userNotFound ≠ loginDetail .invalidCredentials :=
  ⟨rfl, rfl, by decide, by decide⟩

/-- C6 amended.  What the code does instead: when the username-or-email
matches no account the client receives 404 "User not found"; when the account
exists but password verification fails the client receives 401
"Invalid credentials" — the two failure modes carry different statuses and
details, so the response reveals which part of the login attempt failed. -/
theorem login_unknown_vs_wrong_password (st : Store)
    (verify : String → String → Bool) (ue pw : String) :
    (st.users.find? (fun u => u.username == ue || u.email == ue) = none →
      login st verify ue pw = .error .userNotFound ∧
      loginStatus .userNotFound = 404 ∧ loginDetail .userNotFound = "User not found") ∧
    (∀ u, st.users.find? (fun u2 => u2.username == ue || u2.email == ue) = some u →
      verify pw u.password_hash = false →
      login st verify ue pw = .error .invalidCredentials ∧
      loginStatus .invalidCredentials = 401 ∧
      loginDetail .invalidCredentials = "Invalid credentials") := by
  constructor
  · intro h
    exact ⟨by simp [login, h], rfl, rfl⟩
  · intro u hu hv
    exact ⟨by simp [login, hu, hv], rfl, rfl⟩

/-- Witness for the amended C6 statement at a concrete store. -/
theorem login_unknown_vs_wrong_password_witness :
    (login loginStore (fun _ _ => false) "bob" "pw" = .error .userNotFound ∧
      loginStatus .userNotFound = 404 ∧ loginDetail .userNotFound = "User not found") ∧
    (login loginStore (fun _ _ => false) "alice" "pw" = .error .invalidCredentials ∧
      loginStatus .invalidCredentials = 401 ∧
      loginDetail .invalidCredentials = "Invalid credentials") :=
  ⟨(login_unknown_vs_wrong_password loginStore (fun _ _ => false) "bob" "pw").1 rfl,
   (login_unknown_vs_wrong_password loginStore (fun _ _ => false) "alice" "pw").2
     alice rfl rfl⟩

/-- C9.  The admin-count check and the demotion are not evaluated inside one
transactional boundary: the handler reads the count with one query and writes
with a later commit, with no isolation in between
(src/api/user/user_router.py lines 208-218, src/data/database.py lines 57-71).
With exactly two administrators, each request's read/check phase passes
against the initial store, each request run to completion succeeds, and the
two writes together commit a store with zero administrators — the claimed
"exactly one succeeds, the other receives InvariantViolation" outcome is not
enforced by the code. -/
theorem concurrent_demotes_leave_zero_admins :
    adminCount twoAdminStore = 2 ∧
    downgrade_check twoAdminStore "admin2" = some adminTwo ∧
    downgrade_check twoAdminStore "admin1" = some adminOne ∧
    downgrade_user twoAdminStore "admin2" = .ok (downgrade_write twoAdminStore adminTwo) ∧
    downgrade_user twoAdminStore "admin1" = .ok (downgrade_write twoAdminStore adminOne) ∧
    adminCount (downgrade_write (downgrade_write twoAdminStore adminTwo) adminOne) = 0 :=
  ⟨rfl, rfl, rfl, rfl, rfl, rfl⟩

/-- C3.  Given that the target exists and is an administrator, the demotion
fails with status 400 exactly when the count of administrators is 1, and in
every other case it succeeds, committing the store in which the target's admin
flag is cleared. -/
theorem downgrade_guard_iff_last_admin (st : Store) (name : String) (usr : User)
    (hfind : st.users.find? (fun u => u.username == name) = some usr)
    (hadm : usr.admin = true) :
    (adminCount st = 1 →
      downgrade_user st name = .error .lastAdmin ∧
      downgradeStatus .lastAdmin = 400) ∧
    (adminCount st ≠ 1 →
      downgrade_user st name = .ok (downgrade_write st usr) ∧
      ∀ x ∈ (downgrade_write st usr).users, x.id = usr.id → x.admin = false) := by
  constructor
  · intro hc
    exact ⟨by simp [downgrade_user, hfind, hadm, hc], rfl⟩
  · intro hc
    refine ⟨by simp [downgrade_user, hfind, hadm, hc], ?_⟩
    intro x hx hxid
    rcases List.mem_map.mp hx with ⟨a, _, rfl⟩
    by_cases h : a.id == usr.id
    · simp [h]
    · simp [h] at hxid ⊢
      exact absurd (beq_iff_eq.mpr hxid) (by simpa using h)

/-- Witness for C3 at a two-administrator store: demoting `admin1` succeeds
and clears its admin flag. -/
theorem downgrade_guard_iff_last_admin_witness :
    twoAdminStore.users.find? (fun u => u.username == "admin1") = some adminOne ∧
    adminOne.admin = true ∧
    adminCount twoAdminStore ≠ 1 ∧
    downgrade_user twoAdminStore "admin1" = .ok (downgrade_write twoAdminStore adminOne) :=
  ⟨rfl, rfl, by decide,
   ((downgrade_guard_iff_last_admin twoAdminStore "admin1" adminOne rfl rfl).2
     (by decide)).1⟩

/-- C10.  Frame property of the search update: on the accepted path the
committed row keeps the stored `id`, `user_id`, `created_at` and `updated_at`
(whatever the payload carries for them), and exactly the six always-present
data columns take the payload's values. -/
theorem update_search_frame (st : Store) (caller : User) (p : SearchUpdatePayload)
    (ex : Search) (htr : truthyOptInt p.id = true)
    (hfind : st.searches.find? (fun sr => sr.id == p.id) = some ex)
    (hauth : (caller.id == some ex.user_id || caller.admin) = true) :
    update_search st caller p =
      .ok { st with searches := st.searches.map (fun sr =>
        if sr.id == ex.id then applySearchUpdate ex p else sr) } ∧
    (applySearchUpdate ex p).id = ex.id ∧
    (applySearchUpdate ex p).user_id = ex.user_id ∧
    (applySearchUpdate ex p).created_at = ex.created_at ∧
    (applySearchUpdate ex p).updated_at = ex.updated_at ∧
    (applySearchUpdate ex p).job_title = p.job_title ∧
    (applySearchUpdate ex p).date_posted = p.date_posted ∧
    (applySearchUpdate ex p).working_model = p.working_model ∧
    (applySearchUpdate ex p).location = p.location ∧
    (applySearchUpdate ex p).scraping_amount = p.scraping_amount ∧
    (applySearchUpdate ex p).platform = p.platform := by
  have hguard : (!(caller.id == some ex.user_id) && !caller.admin) = false := by
    rw [← Bool.not_or, hauth]; rfl
  exact ⟨by simp [update_search, htr, hfind, hguard], rfl, rfl, rfl, rfl, rfl, rfl,
    rfl, rfl, rfl, rfl⟩

/-- A persisted search row owned by `alice`. -/
def savedSearch : Search :=
  { id := some 4, created_at := 10, updated_at := 11, user_id := 1,
    job_title := "dev", date_posted := "week", working_model := "remote",
    location := "town", scraping_amount := 5, platform := "siteA" }

/-- An update payload that also supplies values for the ignored columns. -/
def searchPayload : SearchUpdatePayload :=
  { id := some 4, created_at := some 99, updated_at := some 98, user_id := 77,
    job_title := "qa", date_posted := "day", working_model := "hybrid",
    location := "city", scraping_amount := 9, platform := "siteB" }

/-- A store whose only search row is `savedSearch`. -/
def searchStore : Store :=
  { users := [alice], jobs := [], ratings := [], searches := [savedSearch],
    nextJobId := 1 }

/-- Witness for C10: the payload supplies values for `id`, `user_id`,
`created_at` and `updated_at`, yet the committed row keeps the stored ones. -/
theorem update_search_frame_witness :
    update_search searchStore alice searchPayload =
      .ok { searchStore with searches := searchStore.searches.map (fun sr =>
        if sr.id == savedSearch.id then applySearchUpdate savedSearch searchPayload
        else sr) } ∧
    (applySearchUpdate savedSearch searchPayload).id = savedSearch.id ∧
    (applySearchUpdate savedSearch searchPayload).user_id = savedSearch.user_id ∧
    (applySearchUpdate savedSearch searchPayload).created_at = savedSearch.created_at ∧
    (applySearchUpdate savedSearch searchPayload).updated_at = savedSearch.updated_at ∧
    (applySearchUpdate savedSearch searchPayload).job_title = searchPayload.job_title :=
  have h := update_search_frame searchStore alice searchPayload savedSearch
    rfl rfl rfl
  ⟨h.1, h.2.1, h.2.2.1, h.2.2.2.1, h.2.2.2.2.1, h.2.2.2.2.2.1⟩

/-- C4.  Atomicity of the create path: when no job with the external key
exists, the single commit installs the new job and its first rating together,
the rating referencing exactly the job's store-assigned id; and any raised
failure (including `jobIdUndetermined`) commits nothing, leaving the store as
it was. -/
theorem create_job_create_path_atomic (st : Store) (job : Job) (uid : Int)
    (uu : String) (hid : job.id = none) (htr : truthyOptStr job.iid = true)
    (hnone : st.jobs.find? (fun jb => jb.iid == job.iid) = none) :
    create_job st job uid uu =
      .ok ({ st with
             jobs := st.jobs ++ [{ job with id := some st.nextJobId }],
             nextJobId := st.nextJobId + 1,
             ratings := st.ratings ++ [{ job_id := st.nextJobId, user_id := uid }] },
        "The Job has been created") ∧
    (∀ st2 job2 uid2 uu2 e, create_job st2 job2 uid2 uu2 = .error e →
      create_job_store st2 job2 uid2 uu2 = st2) :=
  ⟨create_job_fresh_eq st job uid uu hid htr hnone,
   fun _ _ _ _ _ h => create_job_error_store _ _ _ _ _ h⟩

/-- Witness for C4: a fresh external key against the empty store commits the
job and its rating in one step. -/
theorem create_job_create_path_atomic_witness :
    (freshJob.id = none ∧ truthyOptStr freshJob.iid = true ∧
      emptyStore.jobs.find? (fun jb => jb.iid == freshJob.iid) = none) ∧
    create_job emptyStore freshJob 7 "uu" =
      .ok ({ emptyStore with
             jobs := emptyStore.jobs ++ [{ freshJob with id := some emptyStore.nextJobId }],
             nextJobId := emptyStore.nextJobId + 1,
             ratings := emptyStore.ratings ++
               [{ job_id := emptyStore.nextJobId, user_id := 7 }] },
        "The Job has been created") :=
  ⟨⟨rfl, rfl, rfl⟩,
   (create_job_create_path_atomic emptyStore freshJob 7 "uu" rfl rfl rfl).1⟩

/-- C7.  The created-versus-linked distinction is reported correctly: with no
persisted job for the key, the handler commits the job plus the rating and
answers "The Job has been created"; with a persisted job and no rating for the
caller, it commits only the rating for (existing id, caller id) and answers
"The Job already existed and is now linked to your account". -/
theorem create_job_created_vs_linked (st : Store) (job : Job) (uid : Int)
    (uu : String) :
    (job.id = none → truthyOptStr job.iid = true →
      st.jobs.find? (fun jb => jb.iid == job.iid) = none →
      create_job st job uid uu =
        .ok ({ st with
               jobs := st.jobs ++ [{ job with id := some st.nextJobId }],
               nextJobId := st.nextJobId + 1,
               ratings := st.ratings ++ [{ job_id := st.nextJobId, user_id := uid }] },
          "The Job has been created")) ∧
    (∀ ej jid, truthyOptInt job.id = false → truthyOptStr job.iid = true →
      st.jobs.find? (fun jb => jb.iid == job.iid) = some ej → ej.id = some jid →
      st.ratings.find? (fun r => some r.job_id == ej.id && r.user_id == uid) = none →
      create_job st job uid uu =
        .ok ({ st with ratings := st.ratings ++ [{ job_id := jid, user_id := uid }] },
          "The Job already existed and is now linked to your account")) :=
  ⟨fun h1 h2 h3 => create_job_fresh_eq st job uid uu h1 h2 h3,
   fun ej jid h1 h2 h3 h4 h5 => create_job_link_eq st job uid uu ej jid h1 h2 h3 h4 h5⟩

/-- Witness for C7, exercising both branches at concrete stores. -/
theorem create_job_created_vs_linked_witness :
    create_job emptyStore freshJob 7 "uu" =
      .ok ({ emptyStore with
             jobs := emptyStore.jobs ++ [{ freshJob with id := some emptyStore.nextJobId }],
             nextJobId := emptyStore.nextJobId + 1,
             ratings := emptyStore.ratings ++
               [{ job_id := emptyStore.nextJobId, user_id := 7 }] },
        "The Job has been created") ∧
    create_job oneJobStore freshJob 7 "uu" =
      .ok ({ oneJobStore with
             ratings := oneJobStore.ratings ++ [{ job_id := 1, user_id := 7 }] },
        "The Job already existed and is now linked to your account") :=
  ⟨(create_job_created_vs_linked emptyStore freshJob 7 "uu").1 rfl rfl rfl,
   (create_job_created_vs_linked oneJobStore freshJob 7 "uu").2
     existingJob 1 rfl rfl rfl rfl rfl⟩

/-- C8 counterexample.  A payload whose caller-chosen primary id is `0` is not
rejected: Python truthiness (`if job.id:`) treats `0` as absent, so the call
performs the store lookup, inserts a job with the caller-chosen id `0` plus a
rating pointing at it, and reports "created" — instead of the claimed
immediate 400 with the store unchanged. -/
theorem create_job_zero_id_counterexample :
    zeroIdJob.id = some 0 ∧
    create_job emptyStore zeroIdJob 7 "uu" =
      .ok ({ emptyStore with
             jobs := [zeroIdJob],
             ratings := [{ job_id := 0, user_id := 7 }] },
        "The Job has been created") ∧
    create_job_store emptyStore zeroIdJob 7 "uu" ≠ emptyStore :=
  ⟨rfl, rfl, by decide⟩

/-- C8 amended.  The call fails with 400 `IdNotAllowedForCreate` iff the
payload's id is present and nonzero (Python truthiness makes an id of `0`
behave as if no id were supplied); on that failure nothing reaches the store. -/
theorem create_job_id_guard_amended (st : Store) (job : Job) (uid : Int)
    (uu : String) :
    (create_job st job uid uu = .error .idNotAllowed ↔
      ∃ i, job.id = some i ∧ i ≠ 0) ∧
    (create_job st job uid uu = .error .idNotAllowed →
      create_job_store st job uid uu = st) := by
  have hne : truthyOptInt job.id = false →
      create_job st job uid uu ≠ .error .idNotAllowed := by
    intro h
    cases htr : truthyOptStr job.iid with
    | false =>
      cases hjid : job.id with
      | none => simp [create_job, h, htr, addJobFlush, hjid, truthyOptInt]
      | some i =>
        rw [hjid] at h
        simp [create_job, h, htr, addJobFlush, hjid]
    | true =>
      cases hfind : st.jobs.find? (fun jb => jb.iid == job.iid) with
      | none =>
        cases hjid : job.id with
        | none => simp [create_job, h, htr, hfind, addJobFlush, hjid, truthyOptInt]
        | some i =>
          rw [hjid] at h
          simp [create_job, h, htr, hfind, addJobFlush, hjid]
      | some ej =>
        cases hejid : ej.id with
        | none =>
          simp [create_job, h, htr, hfind, hejid]
        | some j =>
          simp [create_job, h, htr, hfind, hejid]
          split <;> simp
  constructor
  · constructor
    · intro he
      by_cases ht : truthyOptInt job.id = true
      · match hj : job.id with
        | none => simp [truthyOptInt, hj] at ht
        | some i =>
          refine ⟨i, rfl, ?_⟩
          simpa [truthyOptInt, hj] using ht
      · exact absurd he (hne (by simpa using ht))
    · rintro ⟨i, hi, hiz⟩
      simp [create_job, truthyOptInt, hi, hiz]
  · intro he
    exact create_job_error_store _ _ _ _ _ he

/-- A create_job payload carrying a nonzero caller-chosen primary id. -/
def nonzeroIdJob : Job :=
  { id := some 5, title := "t", description := "d", iid := some "Z9" }

/-- Witness for the amended C8 statement: a payload with id 5 is rejected with
the store unchanged. -/
theorem create_job_id_guard_amended_witness :
    create_job emptyStore nonzeroIdJob 7 "uu" = .error .idNotAllowed ∧
    create_job_store emptyStore nonzeroIdJob 7 "uu" = emptyStore ∧
    createJobStatus .idNotAllowed = 400 :=
  have h := create_job_id_guard_amended emptyStore nonzeroIdJob 7 "uu"
  have he : create_job emptyStore nonzeroIdJob 7 "uu" = .error .idNotAllowed :=
    h.1.mpr ⟨5, rfl, by decide⟩
  ⟨he, h.2 he, rfl⟩

/-- C2.  Idempotent linking: starting from a well-formed store with no job
for the external key `s`, running `create_job` twice sequentially with the
same key and the same caller leaves the store of the first call untouched —
exactly one job row carries `s` and exactly one rating links it to the caller
— and the second call fails with `alreadyLinked` (status 400), committing
nothing. -/
theorem create_job_second_call_already_linked (st : Store) (job : Job) (uid : Int)
    (uu uu2 : String) (s : String) (wf : Store.WF st)
    (hiid : job.iid = some s) (hs : s.isEmpty = false) (hid : job.id = none)
    (hfresh : ∀ j ∈ st.jobs, ¬ j.iid = some s) :
    create_job (create_job_store st job uid uu) job uid uu2 = .error .alreadyLinked ∧
    createJobStatus .alreadyLinked = 400 ∧
    create_job_store (create_job_store st job uid uu) job uid uu2 =
      create_job_store st job uid uu ∧
    ((create_job_store st job uid uu).jobs.filter
      (fun j => j.iid == some s)).length = 1 ∧
    ((create_job_store st job uid uu).ratings.filter
      (fun r => r.job_id == st.nextJobId && r.user_id == uid)).length = 1 := by
  have htr : truthyOptStr job.iid = true := by simp [truthyOptStr, hiid, hs]
  have hnone : st.jobs.find? (fun jb => jb.iid == job.iid) = none := by
    rw [List.find?_eq_none]
    intro j hj
    simp [hiid]
    exact hfresh j hj
  have h1 := create_job_fresh_eq st job uid uu hid htr hnone
  have hst1 : create_job_store st job uid uu =
      { st with
        jobs := st.jobs ++ [{ job with id := some st.nextJobId }],
        nextJobId := st.nextJobId + 1,
        ratings := st.ratings ++ [{ job_id := st.nextJobId, user_id := uid }] } := by
    simp [create_job_store, h1]
  have hne_rat : ∀ r ∈ st.ratings, r.job_id ≠ st.nextJobId := by
    intro r hr
    obtain ⟨j0, hj0mem, hj0id⟩ := wf.ratingsFK r hr
    obtain ⟨i, hi, hlt⟩ := wf.jobIdsAssigned j0 hj0mem
    rw [hj0id] at hi
    have : r.job_id = i := Option.some.inj hi
    rw [this]
    exact ne_of_lt hlt
  have hfindA : (st.jobs ++ [{ job with id := some st.nextJobId }]).find?
      (fun jb => jb.iid == job.iid) = some { job with id := some st.nextJobId } := by
    rw [List.find?_append, hnone]
    simp
  have hratfindA : (st.ratings ++
        [({ job_id := st.nextJobId, user_id := uid } : Rating)]).find?
      (fun r => some r.job_id == ({ job with id := some st.nextJobId } : Job).id &&
        r.user_id == uid) = some { job_id := st.nextJobId, user_id := uid } := by
    rw [List.find?_append]
    have hfront : st.ratings.find?
        (fun r => some r.job_id == ({ job with id := some st.nextJobId } : Job).id &&
          r.user_id == uid) = none := by
      rw [List.find?_eq_none]
      intro r hr
      simp [hne_rat r hr]
    rw [hfront]
    simp
  have h2 : create_job
      ({ st with
         jobs := st.jobs ++ [{ job with id := some st.nextJobId }],
         nextJobId := st.nextJobId + 1,
         ratings := st.ratings ++ [{ job_id := st.nextJobId, user_id := uid }] } : Store)
      job uid uu2 = .error .alreadyLinked :=
    create_job_already_linked _ job uid uu2 _ _
      (by simp [truthyOptInt, hid]) htr hfindA hratfindA
  have hcj : ((st.jobs ++ [{ job with id := some st.nextJobId }]).filter
      (fun (j : Job) => j.iid == some s)).length = 1 := by
    rw [List.filter_append]
    have hnil : st.jobs.filter (fun j => j.iid == some s) = [] := by
      rw [List.filter_eq_nil_iff]
      intro a ha
      simp
      exact hfresh a ha
    rw [hnil]
    simp [hiid]
  have hcr : ((st.ratings ++
        [({ job_id := st.nextJobId, user_id := uid } : Rating)]).filter
      (fun (r : Rating) => r.job_id == st.nextJobId && r.user_id == uid)).length = 1 := by
    rw [List.filter_append]
    have hnil : st.ratings.filter
        (fun r => r.job_id == st.nextJobId && r.user_id == uid) = [] := by
      rw [List.filter_eq_nil_iff]
      intro r hr
      simp [hne_rat r hr]
    rw [hnil]
    simp
  refine ⟨?_, rfl, ?_, ?_, ?_⟩
  · rw [hst1]
    exact h2
  · rw [hst1]
    exact create_job_error_store _ _ _ _ _ h2
  · rw [hst1]
    exact hcj
  · rw [hst1]
    exact hcr

/-- Witness for C2 at the empty store: two identical claims for key "X123"
by account 7 leave one job and one rating, the second failing with 400. -/
theorem create_job_second_call_already_linked_witness :
    create_job (create_job_store emptyStore freshJob 7 "u1") freshJob 7 "u2" =
      .error .alreadyLinked ∧
    createJobStatus .alreadyLinked = 400 ∧
    create_job_store (create_job_store emptyStore freshJob 7 "u1") freshJob 7 "u2" =
      create_job_store emptyStore freshJob 7 "u1" ∧
    ((create_job_store emptyStore freshJob 7 "u1").jobs.filter
      (fun j => j.iid == some "X123")).length = 1 ∧
    ((create_job_store emptyStore freshJob 7 "u1").ratings.filter
      (fun r => r.job_id == emptyStore.nextJobId && r.user_id == 7)).length = 1 :=
  create_job_second_call_already_linked emptyStore freshJob 7 "u1" "u2" "X123"
    ⟨fun j hj => absurd hj (List.not_mem_nil j),
     fun r hr => absurd hr (List.not_mem_nil r)⟩
    rfl rfl rfl (fun j hj => absurd hj (List.not_mem_nil j))
